import Mathlib

/-!
Verification development for the CompanySustainabilityAssessment backend.

The Python sources are shallowly embedded as Lean definitions:

* `database/db_creation.py` — table rows become structures (`Company`,
  `Synonym`, `News`, `SustainabilityIndicator`, `NewsIndicator`,
  `Contains`), the SQLite database becomes the `DB` structure (lists of
  rows plus the autoincrement counter), and the CHECK / UNIQUE / FOREIGN
  KEY constraints become explicit guards on the insert operations.
* `database/news_analysis_DAO.py` — each DAO method becomes a pure
  function from `DB` (and the loaded `Config`) to its result; methods
  that mutate the store also return the new `DB`.  A caught-and-logged
  database exception corresponds to returning `none` with the store
  unchanged.
* `news_text_analysis.py` — the ingestion pipeline `analyze_news_text`,
  the term-partitioning helper, the worker-pool sizing heuristic, the
  fan-out stage, and one scheduler tick.  The external classification
  and sentiment capabilities are taken as function parameters; Python
  exceptions become an `Except` error channel (the pool of
  `multiprocessing` workers is modelled as the sequential map the code
  performs on the drained queue, with the surrounding try/except kept
  exactly where the source puts it).
* `models/company_recognition.py` — substring-based entity recognition.
* `api.py` — the `create_company` endpoint with its pre-checks.

Floats are modelled as `Rat`, dates as `Int` (only ordering matters to
the embedded code), and Python string containment (`in`) as infix lists
of characters.
-/

namespace CSA

/-- Row of the `Company` table: primary key `name`, CHECK `name <> ''`. -/
structure Company where
  name : String
deriving DecidableEq, Repr

/-- Row of the `Synonym` table: composite primary key
`(company_name, name)`, FK `company_name → Company.name`. -/
structure Synonym where
  company_name : String
  name : String
deriving DecidableEq, Repr

/-- Row of the `News` table: autoincrement key `news_ID`, UNIQUE `text`,
CHECK that `title`, `text` and `link` are non-empty. -/
structure News where
  news_ID : Nat
  text : String
  title : String
  link : String
  sentiment : Rat
  relevancy_score : Rat
  date : Int
deriving DecidableEq, Repr

/-- Row of the `Sustainability_indicator` table: primary key `name`. -/
structure SustainabilityIndicator where
  name : String
deriving DecidableEq, Repr

/-- Row of the `News_indicator` table: composite primary key
`(news_ID, sustainability_indicator_name)`, FKs to `News` and
`Sustainability_indicator`. -/
structure NewsIndicator where
  news_ID : Nat
  sustainability_indicator_name : String
  probability : Rat
deriving DecidableEq, Repr

/-- Row of the `contains` table: composite primary key
`(news_ID, company_name)`, FKs to `News` and `Company`. -/
structure Contains where
  news_ID : Nat
  company_name : String
deriving DecidableEq, Repr

/-- The persistent store: one list per table plus the autoincrement
counter used for `News.news_ID`. -/
structure DB where
  companies : List Company
  synonyms : List Synonym
  news : List News
  sustainabilityIndicators : List SustainabilityIndicator
  newsIndicators : List NewsIndicator
  containsRows : List Contains
  nextNewsId : Nat
deriving DecidableEq, Repr

/-- The recognized configuration options read from `config.yaml` that the
embedded code consults. -/
structure Config where
  news_are_relevant_threshold : Rat
  indicator_belongs_to_news_threshold : Rat
  use_cuda : Bool
  vram_gb_per_analysis_multiprocess : Nat
deriving DecidableEq, Repr

/-- Python string containment `needle in haystack` (substring test; the
empty string is contained in every string). -/
def strIn (needle haystack : String) : Bool :=
  decide (needle.toList <:+: haystack.toList)

/-- `_get_thread_amount_and_chunks_for_bulk_search` from
`news_text_analysis.py`: `used_threads_amount = min (length, max)`; when
zero, no chunks; otherwise worker `i` gets the slice
`[i*chunk_size, (i+1)*chunk_size)` and the last worker absorbs the
remainder. -/
def get_thread_amount_and_chunks_for_bulk_search (search_items : List String)
    (max_thread_amount : Nat) : Nat × List (List String) :=
  let used_threads_amount := min search_items.length max_thread_amount
  if used_threads_amount = 0 then
    (0, [])
  else
    let chunk_size := search_items.length / used_threads_amount
    let news_chunks := (List.range used_threads_amount).map fun i =>
      if i < used_threads_amount - 1 then
        (search_items.drop (i * chunk_size)).take chunk_size
      else
        search_items.drop (i * chunk_size)
    (used_threads_amount, news_chunks)

/-- Worker-pool sizing from `analyze_api_news_for_each_company`:
`optimal_processes_amount` starts at 1; only when `use_cuda` is set and
the GPU memory probe returns a positive amount does it become
`max (gpu_memory_gb / vram_gb_per_analysis_multiprocess) 1`
(Python `int` of a positive true division is the floor, i.e. `Nat`
division here). -/
def optimal_processes_amount (use_cuda : Bool) (gpu_memory_gb : Nat)
    (vram_gb_per_analysis_multiprocess : Nat) : Nat :=
  if use_cuda then
    if gpu_memory_gb > 0 then
      max (gpu_memory_gb / vram_gb_per_analysis_multiprocess) 1
    else
      1
  else
    1

/-- Ordering used by `order_by(asc(column("sentiment")))`. -/
def sentLE (a b : News) : Prop :=
  a.sentiment ≤ b.sentiment

instance : DecidableRel sentLE := fun a b =>
  inferInstanceAs (Decidable (a.sentiment ≤ b.sentiment))

instance : IsTotal News sentLE :=
  ⟨fun a b => le_total a.sentiment b.sentiment⟩

instance : IsTrans News sentLE :=
  ⟨fun _ _ _ hab hbc => le_trans hab hbc⟩

/-- Ordering used by `order_by(desc(column("probability")))`. -/
def probGE (a b : NewsIndicator) : Prop :=
  b.probability ≤ a.probability

instance : DecidableRel probGE := fun a b =>
  inferInstanceAs (Decidable (b.probability ≤ a.probability))

/-- `NewsAnalysisDAO.get_all_companies`. -/
def get_all_companies (db : DB) : List Company :=
  db.companies

/-- `NewsAnalysisDAO.get_all_synonyms`. -/
def get_all_synonyms (db : DB) : List Synonym :=
  db.synonyms

/-- `NewsAnalysisDAO.get_synonyms_by_company`: `filter_by(company_name=...)`. -/
def get_synonyms_by_company (db : DB) (company_name : String) : List Synonym :=
  db.synonyms.filter fun s => s.company_name == company_name

/-- `NewsAnalysisDAO.get_news_by_news_text`: first `News` row whose `text`
equals the argument (at most one exists, `text` being UNIQUE). -/
def get_news_by_news_text (db : DB) (text : String) : Option News :=
  db.news.find? fun n => n.text == text

/-- `NewsAnalysisDAO.get_news_indicators_by_news`: the `News_indicator`
rows of one article, ordered descending by probability. -/
def get_news_indicators_by_news (db : DB) (news_id : Nat) : List NewsIndicator :=
  List.insertionSort probGE (db.newsIndicators.filter fun r => r.news_ID == news_id)

/-- The relational rows produced by
`query(News).join(Contains).join(NewsIndicator)`: triples joined on
`contains.news_ID = News.news_ID` and `News_indicator.news_ID = News.news_ID`. -/
def newsJoinRows (db : DB) : List (News × Contains × NewsIndicator) :=
  db.news.flatMap fun n =>
    db.containsRows.flatMap fun c =>
      db.newsIndicators.filterMap fun ni =>
        if c.news_ID = n.news_ID ∧ ni.news_ID = n.news_ID then some (n, c, ni) else none

/-- `NewsAnalysisDAO.get_news_by_company_and_date_range`: the joined rows
filtered by company, sentiment ceiling, relevancy threshold, indicator
probability threshold and date floor, projected to `News` and ordered
ascending by sentiment. -/
def get_news_by_company_and_date_range (cfg : Config) (db : DB) (company_name : String)
    (max_sentiment : Rat) (from_date : Int) : List News :=
  List.insertionSort sentLE <|
    (newsJoinRows db).filterMap fun r =>
      if r.2.1.company_name = company_name ∧
          r.1.sentiment ≤ max_sentiment ∧
          r.1.relevancy_score ≥ cfg.news_are_relevant_threshold ∧
          r.2.2.probability ≥ cfg.indicator_belongs_to_news_threshold ∧
          r.1.date ≥ from_date then
        some r.1
      else
        none

/-- `NewsAnalysisDAO.create_company`: the insert fails (logged, rolled
back, `None` returned) when the CHECK `name <> ''` or the primary-key
uniqueness is violated. -/
def create_company (db : DB) (name : String) : DB × Option Company :=
  if name = "" ∨ ∃ c ∈ db.companies, c.name = name then
    (db, none)
  else
    ({ db with companies := db.companies ++ [⟨name⟩] }, some ⟨name⟩)

/-- `NewsAnalysisDAO._create_contains`: the insert fails (logged, rolled
back, `None` returned) when the composite primary key already exists or
one of the two foreign keys is absent. -/
def create_contains (db : DB) (news_id : Nat) (company_name : String) :
    DB × Option Contains :=
  if (∃ c ∈ db.containsRows, c.news_ID = news_id ∧ c.company_name = company_name) ∨
      (¬ ∃ n ∈ db.news, n.news_ID = news_id) ∨
      (¬ ∃ c ∈ db.companies, c.name = company_name) then
    (db, none)
  else
    ({ db with containsRows := db.containsRows ++ [⟨news_id, company_name⟩] },
      some ⟨news_id, company_name⟩)

/-- `NewsAnalysisDAO.add_companies_to_news`: one `_create_contains` call
per company name; each failed insert is swallowed. -/
def add_companies_to_news (db : DB) (news_id : Nat) (company_names : List String) : DB :=
  company_names.foldl (fun d company => (create_contains d news_id company).1) db

/-- `NewsAnalysisDAO.create_news`: raises (caught, `None`) on an empty
company list; the `News` insert fails (caught, `None`) on a CHECK or
UNIQUE-text violation; otherwise the row is committed first and the
associations are attached afterwards, individual attach failures being
swallowed by `_create_contains`. -/
def create_news (db : DB) (title text link : String) (sentiment : Rat) (news_date : Int)
    (contained_company_names : List String) (relevancy_score : Rat) : DB × Option News :=
  if contained_company_names = [] then
    (db, none)
  else if title = "" ∨ text = "" ∨ link = "" ∨ ∃ n ∈ db.news, n.text = text then
    (db, none)
  else
    let new_news : News :=
      { news_ID := db.nextNewsId, text := text, title := title, link := link,
        sentiment := sentiment, relevancy_score := relevancy_score, date := news_date }
    let db1 := { db with news := db.news ++ [new_news], nextNewsId := db.nextNewsId + 1 }
    (add_companies_to_news db1 new_news.news_ID contained_company_names, some new_news)

/-- `NewsAnalysisDAO.create_news_indicator`: the insert fails (logged,
`None`) when the composite primary key already exists or a foreign key is
absent. -/
def create_news_indicator (db : DB) (news_id : Nat) (indicator_name : String)
    (probability : Rat) : DB × Option NewsIndicator :=
  if (∃ r ∈ db.newsIndicators,
        r.news_ID = news_id ∧ r.sustainability_indicator_name = indicator_name) ∨
      (¬ ∃ n ∈ db.news, n.news_ID = news_id) ∨
      (¬ ∃ s ∈ db.sustainabilityIndicators, s.name = indicator_name) then
    (db, none)
  else
    ({ db with newsIndicators := db.newsIndicators ++ [⟨news_id, indicator_name, probability⟩] },
      some ⟨news_id, indicator_name, probability⟩)

/-- One company matches a text when its own name, or the name of one of
its synonyms, occurs as a substring (`CompanyClassifier`, inner loop of
`recognize_companies`). -/
def companyMentioned (db : DB) (text : String) (company_name : String) : Bool :=
  strIn company_name text ||
    (get_synonyms_by_company db company_name).any fun synonym => strIn synonym.name text

/-- `CompanyClassifier.recognize_companies`: walk the stored company
names in order, keeping each that matches the text directly or through a
synonym (at most one entry per company — the synonym loop breaks on the
first hit). -/
def recognize_companies (db : DB) (text : String) : List String :=
  (db.companies.map Company.name).filter (companyMentioned db text)

/-- The values of the `Indicators` enum (`indicators.py`), the fixed
topic catalog seeded at first store initialization. -/
def indicatorsCatalog : List String :=
  ["Surface Water Pollution", "Biodiversity", "Wastewater Management",
   "Hazardous Materials Management", "Disclosure", "Soil and Groundwater Impact",
   "Animal Welfare", "Communities Health and Safety", "Corporate Governance",
   "Responsible Investment & Greenwashing", "Supply Chain (Economic / Governance)",
   "Strategy Implementation", "Climate Risks", "Discrimination",
   "Employee Health and Safety", "Risk Management and Internal Control",
   "Legal Proceedings & Law Violations", "Emergencies (Environmental)",
   "Environmental Management", "Land Rehabilitation",
   "Freedom of Association and Right to Organise", "Air Pollution",
   "Cultural Heritage", "Forced Labour", "Labor Relations Management",
   "Water Consumption", "Greenhouse Gas Emissions", "Supply Chain (Environmental)",
   "Product Safety and Quality", "Emergencies (Social)", "Natural Resources",
   "Human Rights", "Physical Impacts", "Land Acquisition and Resettlement (E)",
   "Waste Management", "Indigenous People", "Retrenchment", "Supply Chain (Social)",
   "Land Acquisition and Resettlement (S)", "Minimum Age and Child Labour",
   "Energy Efficiency and Renewables", "Landscape Transformation", "Data Safety",
   "Economic Crime", "Planning Limitations", "Values and Ethics"]

/-- One item of the fetch queue: title, body (`article`), link and parsed
publication date. -/
structure NewsItem where
  title : String
  article : String
  url : String
  published_date : Int
deriving DecidableEq, Repr

/-- The Python exceptions the pipeline can raise:
`NoRelevantCompaniesInNewsTextException`, `LabelNotFoundException`
(classifier contract violation, carrying the labels it did return), the
`IndexError` a probability list shorter than the label list would cause,
and the `AttributeError` caused by reading `news_ID` off a `None`
returned by a failed `create_news`. -/
inductive AnalysisError where
  | noRelevantCompanies
  | labelNotFound (labels : List String)
  | indexError
  | attributeError
deriving DecidableEq, Repr

/-- `sorted_class_probabilities` in `NewsTextAnalysisResult` is a pair of
lists on the fresh-classification path but the list of stored
`News_indicator` rows on the dedup path (Python is untyped there). -/
inductive ClassificationData where
  | fresh (labels : List String) (probs : List Rat)
  | stored (rows : List NewsIndicator)
deriving DecidableEq, Repr

/-- The result record produced by `analyze_news_text`
(`data_classes.NewsTextAnalysisResult`). -/
structure NewsTextAnalysisResult where
  sorted_class_probabilities : ClassificationData
  recognized_company_names : List String
  sentiment : Rat
deriving DecidableEq, Repr

/-- `analyze_news_text` from `news_text_analysis.py`.  The external
classification and sentiment capabilities are parameters (`classify`
returns the pair of label and probability lists, already ranked).
Recognize; on an empty recognized set raise `noRelevantCompanies`.  Dedup
by exact text: if absent, classify, compute
`relevancy = 1 - P("Not Relevant to ESG")` (raising `labelNotFound` when
the label is missing), persist the article with its associations, then
one `News_indicator` row per `(label, probability)` pair whose label is
in the catalog.  If present, only attach the recognized companies and
reuse the stored sentiment and indicator rows. -/
def analyze_news_text (classify : String → List String × List Rat)
    (analyze_sentiment : String → Rat) (db : DB) (news : NewsItem) :
    Except AnalysisError (DB × NewsTextAnalysisResult) :=
  let news_text := news.article
  let recognized_company_names := recognize_companies db news_text
  if recognized_company_names = [] then
    .error .noRelevantCompanies
  else
    match get_news_by_news_text db news_text with
    | none =>
        let sorted_class_probabilities := classify news_text
        if sorted_class_probabilities.2.length < sorted_class_probabilities.1.length then
          .error .indexError
        else
          let analyzed_sentiment := analyze_sentiment news_text
          if "Not Relevant to ESG" ∈ sorted_class_probabilities.1 then
            let index := sorted_class_probabilities.1.indexOf "Not Relevant to ESG"
            let relevancy_score := 1 - sorted_class_probabilities.2.getD index 0
            match create_news db news.title news.article news.url analyzed_sentiment
                news.published_date recognized_company_names relevancy_score with
            | (db1, some new_news) =>
                let db2 := (sorted_class_probabilities.1.zip sorted_class_probabilities.2).foldl
                  (fun d lp =>
                    if lp.1 ∈ indicatorsCatalog then
                      (create_news_indicator d new_news.news_ID lp.1 lp.2).1
                    else d)
                  db1
                .ok (db2,
                  ⟨.fresh sorted_class_probabilities.1 sorted_class_probabilities.2,
                    recognized_company_names, analyzed_sentiment⟩)
            | (_, none) => .error .attributeError
          else
            .error (.labelNotFound sorted_class_probabilities.1)
    | some news_in_db =>
        let db1 := add_companies_to_news db news_in_db.news_ID recognized_company_names
        .ok (db1,
          ⟨.stored (get_news_indicators_by_news db1 news_in_db.news_ID),
            recognized_company_names, news_in_db.sentiment⟩)

/-- `pool.map(analyze_news_text, received_news_list)` over the fetched
articles.  Every submitted task runs: a task that raises has its
exception recorded as that task's result while the workers continue with
the remaining tasks (each item is its own task at the chunk sizes these
workloads produce), and only at the collection point, after all tasks
have completed, is the first recorded exception re-raised.  The store is
threaded through the tasks in submission order; a failing task leaves the
store unchanged (every raise in `analyze_news_text` happens with no
committed write of its own). -/
def pool_map_analyze (classify : String → List String × List Rat)
    (analyze_sentiment : String → Rat) :
    DB → List NewsItem → DB × Option AnalysisError
  | db, [] => (db, none)
  | db, item :: rest =>
      match analyze_news_text classify analyze_sentiment db item with
      | .ok (db1, _) => pool_map_analyze classify analyze_sentiment db1 rest
      | .error e => ((pool_map_analyze classify analyze_sentiment db rest).1, some e)

/-- The fan-out stage of `analyze_api_news_for_each_company` with its
surrounding try/except: the whole map runs inside one `try`, and only
`NoRelevantCompaniesInNewsTextException` is caught (logged); any other
exception propagates out of the cycle. -/
def analyze_api_fanout (classify : String → List String × List Rat)
    (analyze_sentiment : String → Rat) (db : DB) (received_news_list : List NewsItem) :
    Except AnalysisError DB :=
  match pool_map_analyze classify analyze_sentiment db received_news_list with
  | (db1, none) => .ok db1
  | (db1, some .noRelevantCompanies) => .ok db1
  | (_, some e) => .error e

/-- One tick of `_analyze_and_cycle`: when analysis processes are still
active the cycle body is skipped (logged); otherwise the cycle body runs.
Only after the body returns normally does `s.enter` arm the next tick —
the returned flag records whether that line was reached.  An exception
from the cycle body propagates first. -/
def analyze_and_cycle_tick (classify : String → List String × List Rat)
    (analyze_sentiment : String → Rat) (busy : Bool) (db : DB)
    (received_news_list : List NewsItem) : Except AnalysisError (DB × Bool) :=
  if busy then
    .ok (db, true)
  else
    match analyze_api_fanout classify analyze_sentiment db received_news_list with
    | .ok db1 => .ok (db1, true)
    | .error e => .error e

/-- The HTTP errors the `create_company` endpoint can surface: the 409
conflict, the 404 "Serverfehler" raised when the DAO returns `None`, and
the 400 validation rejection the spec describes. -/
inductive ApiError where
  | conflict (detail : String)
  | serverError (detail : String)
  | validation (detail : String)
deriving DecidableEq, Repr

/-- `company_does_not_exist` from `api.py`: Python truthiness makes the
check pass for the empty string without consulting the existing names. -/
def company_does_not_exist (db : DB) (company_name : String) : Except ApiError Unit :=
  if company_name ≠ "" ∧ ∃ c ∈ db.companies, c.name = company_name then
    .error (.conflict "Unternehmen existiert bereits.")
  else
    .ok ()

/-- The `POST /companies` endpoint `create_company` from `api.py`: the
pre-check, then the store insert, then the 404 server error when the
store returned `None`. -/
def api_create_company (db : DB) (company_name : String) : Except ApiError (DB × Bool) :=
  match company_does_not_exist db company_name with
  | .error e => .error e
  | .ok () =>
      match create_company db company_name with
      | (db1, some _) => .ok (db1, true)
      | (_, none) =>
          .error (.serverError "Serverfehler: Unternehmen konnte nicht erstellt werden.")


/-- Equality of embedded Python outcomes is decidable (used to evaluate
the pipeline on concrete stores). -/
instance {e a : Type} [DecidableEq e] [DecidableEq a] : DecidableEq (Except e a) := fun x y =>
  match x, y with
  | .ok u, .ok v =>
      if h : u = v then .isTrue (h ▸ rfl) else .isFalse (fun hc => h (Except.ok.inj hc))
  | .error u, .error v =>
      if h : u = v then .isTrue (h ▸ rfl) else .isFalse (fun hc => h (Except.error.inj hc))
  | .ok _, .error _ => .isFalse (fun hc => Except.noConfusion hc)
  | .error _, .ok _ => .isFalse (fun hc => Except.noConfusion hc)

/-! ## Theorems -/

/-- Helper for the partitioning proof: the concatenation of the first `m`
chunks of size `ch` followed by the rest of the list reproduces the
list. -/
theorem join_map_chunks (ch : Nat) :
    ∀ (m : Nat) (l : List String),
      (((List.range m).map fun i => (l.drop (i * ch)).take ch).flatten) ++ l.drop (m * ch) = l := by
  intro m
  induction m with
  | zero => intro l; simp
  | succ m ih =>
      intro l
      rw [List.range_succ, List.map_append, List.flatten_append]
      simp only [List.map_cons, List.map_nil, List.flatten_cons, List.flatten_nil,
        List.append_nil]
      rw [List.append_assoc, show (m + 1) * ch = m * ch + ch by ring, ← List.drop_drop]
      rw [List.take_append_drop]
      exact ih l

/-- C3 (amended): the term-partitioning function returns
`k = min(n, T)` chunks, every returned chunk is non-empty, and whenever
the term list is empty or `T ≥ 1` the concatenation of the chunks in
worker order equals the original list exactly; for `T = 0` with a
non-empty term list it returns zero chunks, so the terms are dropped
rather than covered (see the counterexample). -/
theorem chunks_partition_correct (search_items : List String) (max_thread_amount : Nat) :
    (get_thread_amount_and_chunks_for_bulk_search search_items max_thread_amount).1
      = min search_items.length max_thread_amount ∧
    (get_thread_amount_and_chunks_for_bulk_search search_items max_thread_amount).2.length
      = min search_items.length max_thread_amount ∧
    (∀ c ∈ (get_thread_amount_and_chunks_for_bulk_search search_items max_thread_amount).2,
      c ≠ []) ∧
    (search_items = [] ∨ 0 < max_thread_amount →
      (get_thread_amount_and_chunks_for_bulk_search search_items max_thread_amount).2.flatten
        = search_items) := by
  by_cases h0 : min search_items.length max_thread_amount = 0
  · refine ⟨?_, ?_, ?_, ?_⟩
    · simp [get_thread_amount_and_chunks_for_bulk_search, h0]
    · simp [get_thread_amount_and_chunks_for_bulk_search, h0]
    · simp [get_thread_amount_and_chunks_for_bulk_search, h0]
    · rintro (h | hT)
      · simp [get_thread_amount_and_chunks_for_bulk_search, h]
      · have hlen : search_items.length = 0 := by omega
        have hnil : search_items = [] := List.eq_nil_of_length_eq_zero hlen
        simp [get_thread_amount_and_chunks_for_bulk_search, hnil]
  · have hk : 0 < min search_items.length max_thread_amount := Nat.pos_of_ne_zero h0
    have hkle : min search_items.length max_thread_amount ≤ search_items.length :=
      min_le_left _ _
    have hch1 : 1 ≤ search_items.length / min search_items.length max_thread_amount :=
      (Nat.one_le_div_iff hk).mpr hkle
    have hmul : search_items.length / min search_items.length max_thread_amount *
        min search_items.length max_thread_amount ≤ search_items.length :=
      Nat.div_mul_le_self _ _
    have hbound : ∀ i : Nat, i < min search_items.length max_thread_amount →
        i * (search_items.length / min search_items.length max_thread_amount) +
          search_items.length / min search_items.length max_thread_amount ≤
            search_items.length := by
      intro i hi
      have h1 : (i + 1) * (search_items.length / min search_items.length max_thread_amount) ≤
          min search_items.length max_thread_amount *
            (search_items.length / min search_items.length max_thread_amount) :=
        Nat.mul_le_mul_right _ hi
      have h2 : (i + 1) * (search_items.length / min search_items.length max_thread_amount) =
          i * (search_items.length / min search_items.length max_thread_amount) +
            search_items.length / min search_items.length max_thread_amount := by ring
      have h3 : min search_items.length max_thread_amount *
            (search_items.length / min search_items.length max_thread_amount) =
          search_items.length / min search_items.length max_thread_amount *
            min search_items.length max_thread_amount := Nat.mul_comm _ _
      omega
    refine ⟨?_, ?_, ?_, ?_⟩
    · unfold get_thread_amount_and_chunks_for_bulk_search
      simp only [if_neg h0]
    · unfold get_thread_amount_and_chunks_for_bulk_search
      simp only [if_neg h0, List.length_map, List.length_range]
    · unfold get_thread_amount_and_chunks_for_bulk_search
      simp only [if_neg h0]
      intro c hc
      simp only [List.mem_map, List.mem_range] at hc
      obtain ⟨i, hi, hfi⟩ := hc
      have hlen : 0 < c.length := by
        subst hfi
        by_cases hlast : i < min search_items.length max_thread_amount - 1
        · simp only [if_pos hlast, List.length_take, List.length_drop]
          have := hbound i hi
          omega
        · simp only [if_neg hlast, List.length_drop]
          have := hbound i hi
          omega
      exact List.ne_nil_of_length_pos hlen
    · intro _
      unfold get_thread_amount_and_chunks_for_bulk_search
      simp only [if_neg h0]
      obtain ⟨m, hm⟩ : ∃ m, min search_items.length max_thread_amount = m + 1 :=
        ⟨min search_items.length max_thread_amount - 1, (Nat.succ_pred_eq_of_pos hk).symm⟩
      rw [hm]
      simp only [Nat.add_sub_cancel]
      rw [List.range_succ, List.map_append, List.flatten_append]
      simp only [List.map_cons, List.map_nil, List.flatten_cons, List.flatten_nil,
        List.append_nil]
      rw [← hm]
      have hcong : (List.range m).map
            (fun i => if i < m then
              (search_items.drop
                (i * (search_items.length / min search_items.length max_thread_amount))).take
                (search_items.length / min search_items.length max_thread_amount)
              else search_items.drop
                (i * (search_items.length / min search_items.length max_thread_amount)))
          = (List.range m).map fun i =>
              (search_items.drop
                (i * (search_items.length / min search_items.length max_thread_amount))).take
                (search_items.length / min search_items.length max_thread_amount) := by
        apply List.map_congr_left
        intro i hi
        simp only [List.mem_range] at hi
        simp [hi]
      rw [hcong]
      have hlast : ¬ (m < m) := lt_irrefl _
      simp only [if_neg hlast]
      exact join_map_chunks _ m search_items

/-- C3 witness: at three terms and two workers the concatenation of the
chunks reproduces the term list. -/
theorem chunks_partition_correct_witness :
    (get_thread_amount_and_chunks_for_bulk_search ["a", "b", "c"] 2).2.flatten
      = ["a", "b", "c"] :=
  (chunks_partition_correct ["a", "b", "c"] 2).2.2.2 (Or.inr (by decide))

/-- C3 counterexample: with one term and a zero worker count the function
returns zero chunks, so their concatenation omits the term, contradicting
the claim that the concatenation always reproduces the original list for
all `n ≥ 0`, `T ≥ 0`. -/
theorem chunks_partition_counterexample :
    (get_thread_amount_and_chunks_for_bulk_search ["a"] 0).1 = 0 ∧
    (get_thread_amount_and_chunks_for_bulk_search ["a"] 0).2 = [] ∧
    (get_thread_amount_and_chunks_for_bulk_search ["a"] 0).2.flatten ≠ ["a"] := by
  decide

/-- The non-topic filtered read as the spec sentence describes it, for
refinement comparison with `get_news_by_company_and_date_range`: exactly
the rows with the company among the associated organizations, sentiment
at most the ceiling, relevancy at least the configured threshold and date
at least the floor — no condition on topic-membership probability —
ordered ascending by sentiment. -/
def get_news_spec_model (cfg : Config) (db : DB) (company_name : String)
    (max_sentiment : Rat) (from_date : Int) : List News :=
  List.insertionSort sentLE <| db.news.filter fun n =>
    decide ((∃ c ∈ db.containsRows, c.news_ID = n.news_ID ∧ c.company_name = company_name) ∧
      n.sentiment ≤ max_sentiment ∧
      n.relevancy_score ≥ cfg.news_are_relevant_threshold ∧
      n.date ≥ from_date)

/-- A configuration and store for the C1 counterexample: one company, one
article satisfying all four spec conditions but having no
`News_indicator` row at all. -/
def cfgC1 : Config :=
  { news_are_relevant_threshold := 0, indicator_belongs_to_news_threshold := 1,
    use_cuda := false, vram_gb_per_analysis_multiprocess := 3 }

/-- The single article of the C1 counterexample store. -/
def newsC1 : News :=
  { news_ID := 1, text := "Acme pollutes", title := "t", link := "l",
    sentiment := 5, relevancy_score := 1, date := 0 }

/-- The C1 counterexample store: `newsC1` is associated with company
"Acme" and meets the sentiment, relevancy and date filters, but the
`News_indicator` table is empty. -/
def dbC1 : DB :=
  { companies := [⟨"Acme"⟩], synonyms := [], news := [newsC1],
    sustainabilityIndicators := [], newsIndicators := [],
    containsRows := [⟨1, "Acme"⟩], nextNewsId := 2 }

/-- C1 counterexample: on a store whose only article passes every
condition the claim lists, the code returns nothing — the inner join on
`News_indicator` and its probability filter do restrict the result,
contrary to the claim that no further condition applies. -/
theorem get_news_by_company_counterexample :
    get_news_by_company_and_date_range cfgC1 dbC1 "Acme" 10 0 = [] ∧
    get_news_spec_model cfgC1 dbC1 "Acme" 10 0 = [newsC1] := by
  decide

/-- Membership in the three-table join underlying the filtered reads. -/
theorem mem_newsJoinRows {db : DB} {r : News × Contains × NewsIndicator} :
    r ∈ newsJoinRows db ↔
      r.1 ∈ db.news ∧ r.2.1 ∈ db.containsRows ∧ r.2.2 ∈ db.newsIndicators ∧
        r.2.1.news_ID = r.1.news_ID ∧ r.2.2.news_ID = r.1.news_ID := by
  obtain ⟨n, c, ni⟩ := r
  simp only [newsJoinRows, List.mem_flatMap, List.mem_filterMap]
  constructor
  · rintro ⟨n', hn', c', hc', ni', hni', h⟩
    split at h
    · rename_i hcond
      cases h
      exact ⟨hn', hc', hni', hcond.1, hcond.2⟩
    · cases h
  · rintro ⟨hn, hc, hni, h1, h2⟩
    exact ⟨n, hn, c, hc, ni, hni, by simp [h1, h2]⟩

/-- C1 (amended): the non-topic filtered read returns a list ordered
ascending by sentiment whose members are exactly the articles whose
associated organizations include the company, whose sentiment is at most
the ceiling, whose relevancy score is at least the configured threshold,
whose date is at least the floor, and — the condition the original claim
excluded — that have at least one `News_indicator` row with probability
at least the configured indicator threshold. -/
theorem get_news_by_company_and_date_range_spec (cfg : Config) (db : DB)
    (company_name : String) (max_sentiment : Rat) (from_date : Int) :
    (∀ n, n ∈ get_news_by_company_and_date_range cfg db company_name max_sentiment from_date ↔
      (n ∈ db.news ∧
        (∃ c ∈ db.containsRows, c.news_ID = n.news_ID ∧ c.company_name = company_name) ∧
        n.sentiment ≤ max_sentiment ∧
        n.relevancy_score ≥ cfg.news_are_relevant_threshold ∧
        n.date ≥ from_date ∧
        (∃ ni ∈ db.newsIndicators, ni.news_ID = n.news_ID ∧
          ni.probability ≥ cfg.indicator_belongs_to_news_threshold))) ∧
    List.Sorted sentLE
      (get_news_by_company_and_date_range cfg db company_name max_sentiment from_date) := by
  constructor
  · intro n
    unfold get_news_by_company_and_date_range
    rw [List.Perm.mem_iff (List.perm_insertionSort _ _)]
    simp only [List.mem_filterMap]
    constructor
    · rintro ⟨r, hr, hsome⟩
      rw [mem_newsJoinRows] at hr
      split at hsome
      · rename_i hcond
        cases hsome
        obtain ⟨hn, hc, hni, hid1, hid2⟩ := hr
        exact ⟨hn, ⟨r.2.1, hc, hid1, hcond.1⟩, hcond.2.1, hcond.2.2.1,
          hcond.2.2.2.2, ⟨r.2.2, hni, hid2, hcond.2.2.2.1⟩⟩
      · cases hsome
    · rintro ⟨hn, ⟨c, hc, hcid, hcname⟩, hs, hrel, hdate, ni, hni, hniid, hprob⟩
      refine ⟨(n, c, ni), ?_, ?_⟩
      · rw [mem_newsJoinRows]
        exact ⟨hn, hc, hni, hcid, hniid⟩
      · simp [hcname, hs, hrel, hprob, hdate]
  · exact List.sorted_insertionSort _ _

/-- C8: the fan-out worker-pool size is 1 whenever the GPU memory probe
reports no accelerator, regardless of configuration; when `use_cuda` is
configured and the probe reports positive memory, the pool size is
`max 1 (gpu_memory_gb / vram_gb_per_analysis_multiprocess)` (floor
division); in particular 9 GB at 3 GB per worker yields 3 workers. -/
theorem optimal_processes_amount_spec (use_cuda : Bool) (gpu_memory_gb vram : Nat) :
    (gpu_memory_gb = 0 → optimal_processes_amount use_cuda gpu_memory_gb vram = 1) ∧
    (use_cuda = true → 0 < gpu_memory_gb →
      optimal_processes_amount use_cuda gpu_memory_gb vram = max 1 (gpu_memory_gb / vram)) ∧
    optimal_processes_amount true 9 3 = 3 := by
  refine ⟨?_, ?_, by decide⟩
  · intro h; subst h; cases use_cuda <;> simp [optimal_processes_amount]
  · intro hu hm; subst hu
    simp [optimal_processes_amount, hm, Nat.max_comm]

/-- C8 witness: both conditional parts instantiated — no accelerator
memory yields one worker, 9 GB at 3 GB per worker yields
`max 1 3 = 3`. -/
theorem optimal_processes_amount_spec_witness :
    optimal_processes_amount true 0 3 = 1 ∧
    optimal_processes_amount true 9 3 = max 1 (9 / 3) :=
  ⟨(optimal_processes_amount_spec true 0 3).1 rfl,
    (optimal_processes_amount_spec true 9 3).2.1 rfl (by decide)⟩


/-- A `contains` row matching a given key pair is the same thing as that
pair being a member of the table (rows are pairs of their key fields). -/

theorem contains_row_mem_iff {rows : List Contains} {id : Nat} {comp : String} :
    (∃ c ∈ rows, c.news_ID = id ∧ c.company_name = comp) ↔ (⟨id, comp⟩ : Contains) ∈ rows := by
  constructor
  · rintro ⟨c, hc, h1, h2⟩
    cases c
    simp only at h1 h2
    subst h1; subst h2
    exact hc
  · intro h
    exact ⟨⟨id, comp⟩, h, rfl, rfl⟩

theorem create_contains_tables (db : DB) (id : Nat) (comp : String) :
    ((create_contains db id comp).1).news = db.news ∧
    ((create_contains db id comp).1).companies = db.companies ∧
    ((create_contains db id comp).1).synonyms = db.synonyms ∧
    ((create_contains db id comp).1).sustainabilityIndicators = db.sustainabilityIndicators ∧
    ((create_contains db id comp).1).newsIndicators = db.newsIndicators ∧
    ((create_contains db id comp).1).nextNewsId = db.nextNewsId := by
  unfold create_contains
  split <;> exact ⟨rfl, rfl, rfl, rfl, rfl, rfl⟩

theorem mem_create_contains (db : DB) (id : Nat) (comp : String) (p : Contains) :
    (p ∈ ((create_contains db id comp).1).containsRows ↔
      p ∈ db.containsRows ∨
        (p = ⟨id, comp⟩ ∧ (⟨id, comp⟩ : Contains) ∉ db.containsRows ∧
          (∃ n ∈ db.news, n.news_ID = id) ∧ (∃ c ∈ db.companies, c.name = comp))) := by
  unfold create_contains
  split
  · rename_i hcond
    simp only []
    constructor
    · exact Or.inl
    · rintro (h | ⟨rfl, hnp, hfn, hfc⟩)
      · exact h
      · rcases hcond with h1 | h2 | h3
        · exact absurd (contains_row_mem_iff.mp h1) hnp
        · exact absurd hfn h2
        · exact absurd hfc h3
  · rename_i hcond
    have h1 : ¬ ∃ c ∈ db.containsRows, c.news_ID = id ∧ c.company_name = comp :=
      fun h => hcond (Or.inl h)
    have h2 : ∃ n ∈ db.news, n.news_ID = id := by
      by_contra h; exact hcond (Or.inr (Or.inl h))
    have h3 : ∃ c ∈ db.companies, c.name = comp := by
      by_contra h; exact hcond (Or.inr (Or.inr h))
    simp only [List.mem_append, List.mem_singleton]
    constructor
    · rintro (h | h)
      · exact Or.inl h
      · exact Or.inr ⟨h, fun hin => h1 (contains_row_mem_iff.mpr hin), h2, h3⟩
    · rintro (h | ⟨rfl, _, _, _⟩)
      · exact Or.inl h
      · exact Or.inr rfl

theorem add_companies_tables (id : Nat) (comps : List String) : ∀ db : DB,
    (add_companies_to_news db id comps).news = db.news ∧
    (add_companies_to_news db id comps).companies = db.companies ∧
    (add_companies_to_news db id comps).synonyms = db.synonyms ∧
    (add_companies_to_news db id comps).sustainabilityIndicators
      = db.sustainabilityIndicators ∧
    (add_companies_to_news db id comps).newsIndicators = db.newsIndicators ∧
    (add_companies_to_news db id comps).nextNewsId = db.nextNewsId := by
  induction comps with
  | nil => intro db; exact ⟨rfl, rfl, rfl, rfl, rfl, rfl⟩
  | cons c rest ih =>
      intro db
      have h1 := create_contains_tables db id c
      have h2 := ih ((create_contains db id c).1)
      have hstep : add_companies_to_news db id (c :: rest)
          = add_companies_to_news ((create_contains db id c).1) id rest := by
        unfold add_companies_to_news
        simp only [List.foldl_cons]
      rw [hstep]
      exact ⟨h2.1.trans h1.1, h2.2.1.trans h1.2.1, h2.2.2.1.trans h1.2.2.1,
        h2.2.2.2.1.trans h1.2.2.2.1, h2.2.2.2.2.1.trans h1.2.2.2.2.1,
        h2.2.2.2.2.2.trans h1.2.2.2.2.2⟩

theorem mem_add_companies (id : Nat) (comps : List String) : ∀ (db : DB) (p : Contains),
    (p ∈ (add_companies_to_news db id comps).containsRows ↔
      p ∈ db.containsRows ∨
        (p.news_ID = id ∧ p.company_name ∈ comps ∧
          (∃ n ∈ db.news, n.news_ID = id) ∧
          (∃ c ∈ db.companies, c.name = p.company_name))) := by
  induction comps with
  | nil =>
      intro db p
      simp [add_companies_to_news]
  | cons c rest ih =>
      intro db p
      have hstep : add_companies_to_news db id (c :: rest)
          = add_companies_to_news ((create_contains db id c).1) id rest := by
        unfold add_companies_to_news
        simp only [List.foldl_cons]
      rw [hstep]
      have htab := create_contains_tables db id c
      rw [ih ((create_contains db id c).1) p, mem_create_contains, htab.1, htab.2.1]
      constructor
      · rintro ((h | ⟨rfl, hnp, hfn, hfc⟩) | ⟨hid, hmem, hfn, hfc⟩)
        · exact Or.inl h
        · exact Or.inr ⟨rfl, List.mem_cons_self _ _, hfn, hfc⟩
        · exact Or.inr ⟨hid, List.mem_cons_of_mem _ hmem, hfn, hfc⟩
      · rintro (h | ⟨hid, hmem, hfn, hfc⟩)
        · exact Or.inl (Or.inl h)
        · rcases List.mem_cons.mp hmem with rfl | hmem2
          · by_cases hp : (⟨id, p.company_name⟩ : Contains) ∈ db.containsRows
            · have : p = ⟨id, p.company_name⟩ := by cases p; simp only at hid; subst hid; rfl
              exact Or.inl (Or.inl (this ▸ hp))
            · have hpe : p = ⟨id, p.company_name⟩ := by
                cases p; simp only at hid; subst hid; rfl
              exact Or.inl (Or.inr ⟨hpe, hp, hfn, hfc⟩)
          · exact Or.inr ⟨hid, hmem2, hfn, hfc⟩


/-- C2: ingesting a text for which a News row already exists performs no
classification or sentiment analysis (the outcome is identical for any
two classification and sentiment capabilities), creates no second News
row, touches no other table, reuses the stored sentiment and indicator
rows in its result, and only adds `contains` associations for the
recognized companies — re-attaching an already-attached organization
leaves the table unchanged rather than erroring. -/

theorem analyze_news_text_idempotent (classify₁ classify₂ : String → List String × List Rat)
    (sent₁ sent₂ : String → Rat) (db : DB) (item : NewsItem) (n : News)
    (h : get_news_by_news_text db item.article = some n) :
    analyze_news_text classify₁ sent₁ db item = analyze_news_text classify₂ sent₂ db item ∧
    (∀ db' res, analyze_news_text classify₁ sent₁ db item = .ok (db', res) →
      db'.news = db.news ∧
      db'.newsIndicators = db.newsIndicators ∧
      db'.companies = db.companies ∧
      db'.synonyms = db.synonyms ∧
      res.sentiment = n.sentiment ∧
      res.sorted_class_probabilities = .stored (get_news_indicators_by_news db n.news_ID) ∧
      (∀ p : Contains, p ∈ db'.containsRows ↔
        p ∈ db.containsRows ∨
          (p.news_ID = n.news_ID ∧ p.company_name ∈ recognize_companies db item.article ∧
            (∃ nn ∈ db.news, nn.news_ID = n.news_ID) ∧
            (∃ c ∈ db.companies, c.name = p.company_name)))) := by
  simp only [analyze_news_text]
  rw [h]
  by_cases hrec : recognize_companies db item.article = []
  · rw [if_pos hrec]
    exact ⟨rfl, by intro db' res hcontra; cases hcontra⟩
  · rw [if_neg hrec]
    refine ⟨rfl, ?_⟩
    intro db' res hok
    have htab := add_companies_tables n.news_ID (recognize_companies db item.article) db
    injection hok with hpair
    rw [Prod.mk.injEq] at hpair
    obtain ⟨hdb, hres⟩ := hpair
    subst hdb
    subst hres
    refine ⟨htab.1, htab.2.2.2.2.1, htab.2.1, htab.2.2.1, rfl, ?_, ?_⟩
    · have hgni : get_news_indicators_by_news
          (add_companies_to_news db n.news_ID (recognize_companies db item.article)) n.news_ID
          = get_news_indicators_by_news db n.news_ID := by
        unfold get_news_indicators_by_news
        rw [htab.2.2.2.2.1]
      exact congrArg ClassificationData.stored hgni
    · intro p
      exact mem_add_companies n.news_ID (recognize_companies db item.article) db p


/-- Helper: `create_news_indicator` never changes the `News` table. -/
theorem create_news_indicator_news (db : DB) (id : Nat) (label : String) (p : Rat) :
    ((create_news_indicator db id label p).1).news = db.news := by
  unfold create_news_indicator
  split <;> rfl

/-- Helper: the indicator-persisting fold after a fresh classification
never changes the `News` table. -/
theorem fold_indicators_news (id : Nat) (pairs : List (String × Rat)) : ∀ db : DB,
    (pairs.foldl (fun d lp =>
      if lp.1 ∈ indicatorsCatalog then (create_news_indicator d id lp.1 lp.2).1 else d)
      db).news = db.news := by
  induction pairs with
  | nil => intro db; rfl
  | cons q rest ih =>
      intro db
      simp only [List.foldl_cons]
      rw [ih]
      split
      · exact create_news_indicator_news db id q.1 q.2
      · rfl

/-- Helper: a successful `create_news` appends exactly one row, carrying
the passed relevancy score and text. -/
theorem create_news_ok {db : DB} {title text link : String} {s : Rat} {d : Int}
    {comps : List String} {rel : Rat} {db2 : DB} {nn : News}
    (h : create_news db title text link s d comps rel = (db2, some nn)) :
    db2.news = db.news ++ [nn] ∧ nn.relevancy_score = rel ∧ nn.text = text := by
  unfold create_news at h
  split at h
  · rw [Prod.mk.injEq] at h
    exact absurd h.2 (by simp)
  · split at h
    · rw [Prod.mk.injEq] at h
      exact absurd h.2 (by simp)
    · rw [Prod.mk.injEq] at h
      obtain ⟨h1, h2⟩ := h
      injection h2 with h2
      subst h2
      subst h1
      refine ⟨?_, rfl, rfl⟩
      exact (add_companies_tables db.nextNewsId comps _).1

/-- C4: when the pipeline classifies a not-yet-stored text (with at least
one recognized company and a classifier output whose probability list
covers its label list), a missing "Not Relevant to ESG" label makes the
pipeline fail with `LabelNotFoundException` — no News row is persisted,
no default is substituted — and on any successful run every newly
persisted News row carries relevancy score exactly
`1 - P("Not Relevant to ESG")`, the probability at the first index of that
label. -/
theorem analyze_news_text_relevancy (classify : String → List String × List Rat)
    (sent : String → Rat) (db : DB) (item : NewsItem)
    (hnone : get_news_by_news_text db item.article = none)
    (hrec : recognize_companies db item.article ≠ [])
    (hlen : (classify item.article).1.length ≤ (classify item.article).2.length) :
    ("Not Relevant to ESG" ∉ (classify item.article).1 →
      analyze_news_text classify sent db item
        = .error (.labelNotFound (classify item.article).1)) ∧
    (∀ db' res, analyze_news_text classify sent db item = .ok (db', res) →
      ∀ nrow ∈ db'.news, nrow ∉ db.news →
        nrow.relevancy_score
          = 1 - (classify item.article).2.getD
              ((classify item.article).1.indexOf "Not Relevant to ESG") 0) := by
  simp only [analyze_news_text]
  rw [hnone, if_neg hrec, if_neg (Nat.not_lt.mpr hlen)]
  constructor
  · intro hlab
    rw [if_neg hlab]
  · intro db' res hok
    by_cases hlab : "Not Relevant to ESG" ∈ (classify item.article).1
    · rw [if_pos hlab] at hok
      rcases hcn : create_news db item.title item.article item.url (sent item.article)
          item.published_date (recognize_companies db item.article)
          (1 - (classify item.article).2.getD
            ((classify item.article).1.indexOf "Not Relevant to ESG") 0) with ⟨db1, onn⟩
      rw [hcn] at hok
      cases onn with
      | none => exact absurd hok (by simp)
      | some nn =>
          injection hok with hpair
          rw [Prod.mk.injEq] at hpair
          obtain ⟨hdb, _⟩ := hpair
          intro nrow hmem hnot
          have hnews := (create_news_ok hcn).1
          rw [← hdb] at hmem
          rw [fold_indicators_news nn.news_ID _ db1, hnews] at hmem
          rcases List.mem_append.mp hmem with hold | hnew
          · exact absurd hold hnot
          · rw [List.mem_singleton] at hnew
            subst hnew
            exact (create_news_ok hcn).2.1
    · rw [if_neg hlab] at hok
      exact absurd hok (by simp)


/-- An empty store (fresh database file before any organization is
created). -/
def dbEmpty : DB :=
  { companies := [], synonyms := [], news := [], sustainabilityIndicators := [],
    newsIndicators := [], containsRows := [], nextNewsId := 1 }

/-- The already-stored article of the C2 witness store. -/
def newsC2 : News :=
  { news_ID := 1, text := "Acme pollutes rivers", title := "t", link := "l",
    sentiment := 2, relevancy_score := 1, date := 0 }

/-- C2 witness store: the article text is already present. -/
def dbC2 : DB :=
  { companies := [⟨"Acme"⟩], synonyms := [], news := [newsC2],
    sustainabilityIndicators := [], newsIndicators := [], containsRows := [],
    nextNewsId := 2 }

/-- A fetched item whose body equals the already-stored text. -/
def itemC2 : NewsItem :=
  { title := "t2", article := "Acme pollutes rivers", url := "l2", published_date := 5 }

/-- C2 witness: re-ingesting the stored text gives the same outcome under
two entirely different classification and sentiment capabilities. -/
theorem analyze_news_text_idempotent_witness :
    analyze_news_text (fun _ => (["Not Relevant to ESG"], [0])) (fun _ => 5) dbC2 itemC2
      = analyze_news_text (fun _ => ([], [])) (fun _ => 9) dbC2 itemC2 :=
  (analyze_news_text_idempotent (fun _ => (["Not Relevant to ESG"], [0])) (fun _ => ([], []))
    (fun _ => 5) (fun _ => 9) dbC2 itemC2 newsC2 (by decide)).1

/-- C4 witness store: one company, no stored article. -/
def dbC4 : DB :=
  { companies := [⟨"Acme"⟩], synonyms := [], news := [], sustainabilityIndicators := [],
    newsIndicators := [], containsRows := [], nextNewsId := 1 }

/-- A fetched item mentioning the tracked company of `dbC4`. -/
def itemC4 : NewsItem :=
  { title := "t", article := "Acme spills oil", url := "l", published_date := 0 }

/-- C4 witness: a classifier that omits "Not Relevant to ESG" makes the
pipeline fail with `LabelNotFoundException` carrying the returned
labels. -/
theorem analyze_news_text_relevancy_witness :
    analyze_news_text (fun _ => (["Climate Risks"], [1])) (fun _ => 5) dbC4 itemC4
      = .error (.labelNotFound ["Climate Risks"]) :=
  (analyze_news_text_relevancy (fun _ => (["Climate Risks"], [1])) (fun _ => 5) dbC4 itemC4
    (by decide) (by decide) (by decide)).1 (by decide)

/-- C5 (amended): in the fan-out stage every fetched article is
processed.  After a successful ingestion the remaining articles run on
the updated store; an article failing with
`NoRelevantCompaniesInNewsTextException` as the first failure is caught
and logged, the remaining articles are still processed, and the cycle
completes normally on the store they produce; any other unexpected first
failure likewise leaves the remaining articles processed — their
ingestions persist in the store — but the failure is re-raised at the
collection point and propagates, aborting the cycle only after the
fan-out has completed, not the remaining fan-out itself. -/
theorem fanout_failure_semantics (classify : String → List String × List Rat)
    (sent : String → Rat) (db : DB) (item : NewsItem) (rest : List NewsItem) :
    (∀ db1 res, analyze_news_text classify sent db item = .ok (db1, res) →
      analyze_api_fanout classify sent db (item :: rest)
        = analyze_api_fanout classify sent db1 rest ∧
      pool_map_analyze classify sent db (item :: rest)
        = pool_map_analyze classify sent db1 rest) ∧
    (analyze_news_text classify sent db item = .error .noRelevantCompanies →
      analyze_api_fanout classify sent db (item :: rest)
        = .ok (pool_map_analyze classify sent db rest).1) ∧
    (∀ e, analyze_news_text classify sent db item = .error e → e ≠ .noRelevantCompanies →
      analyze_api_fanout classify sent db (item :: rest) = .error e ∧
      (pool_map_analyze classify sent db (item :: rest)).1
        = (pool_map_analyze classify sent db rest).1) := by
  refine ⟨?_, ?_, ?_⟩
  · intro db1 res h
    exact ⟨by simp [analyze_api_fanout, pool_map_analyze, h],
      by simp [pool_map_analyze, h]⟩
  · intro h
    simp [analyze_api_fanout, pool_map_analyze, h]
  · intro e h he
    cases e with
    | noRelevantCompanies => exact absurd rfl he
    | labelNotFound l =>
        exact ⟨by simp [analyze_api_fanout, pool_map_analyze, h],
          by simp [pool_map_analyze, h]⟩
    | indexError =>
        exact ⟨by simp [analyze_api_fanout, pool_map_analyze, h],
          by simp [pool_map_analyze, h]⟩
    | attributeError =>
        exact ⟨by simp [analyze_api_fanout, pool_map_analyze, h],
          by simp [pool_map_analyze, h]⟩

/-- A well-behaved constant classification capability. -/
def cl0 : String → List String × List Rat := fun _ => (["Not Relevant to ESG"], [0])

/-- A constant sentiment capability. -/
def se0 : String → Rat := fun _ => 5

/-- Store for the fan-out and scheduler scenarios: one tracked company,
nothing ingested yet. -/
def dbC5 : DB :=
  { companies := [⟨"Acme"⟩], synonyms := [], news := [], sustainabilityIndicators := [],
    newsIndicators := [], containsRows := [], nextNewsId := 1 }

/-- A fetched item mentioning no tracked organization. -/
def itemBad : NewsItem :=
  { title := "t1", article := "no companies here", url := "l1", published_date := 0 }

/-- A fetched item that mentions the tracked company and would ingest
successfully on its own. -/
def itemGood : NewsItem :=
  { title := "t2", article := "Acme cleans up", url := "l2", published_date := 0 }

/-- C5 witness: the caught no-relevant-organization failure still lets
the fan-out complete normally over the remaining article. -/
theorem fanout_failure_semantics_witness :
    analyze_api_fanout cl0 se0 dbC5 [itemBad, itemGood]
      = .ok (pool_map_analyze cl0 se0 dbC5 [itemGood]).1 :=
  (fanout_failure_semantics cl0 se0 dbC5 itemBad [itemGood]).2.1 (by decide)

/-- A classification capability that violates the label contract on one
specific article and behaves normally otherwise. -/
def clSel : String → List String × List Rat := fun t =>
  if t = "Acme hides emissions" then ([], []) else (["Not Relevant to ESG"], [0])

/-- A fetched item mentioning the tracked company, for which `clSel`
returns a contract-violating classification. -/
def itemBadLabel : NewsItem :=
  { title := "t3", article := "Acme hides emissions", url := "l3", published_date := 0 }

/-- C5 counterexample: with the contract-violating article first, the
unexpected `LabelNotFoundException` does propagate out of the fan-out —
but it does not abort the remaining fan-out: the sibling article has
still been ingested into the store the map produced, contradicting the
claim that any other unexpected per-article failure aborts the remaining
fan-out for that cycle. -/
theorem fanout_fail_fast_counterexample :
    analyze_api_fanout clSel se0 dbC5 [itemBadLabel, itemGood]
      = .error (.labelNotFound []) ∧
    (get_news_by_news_text
      (pool_map_analyze clSel se0 dbC5 [itemBadLabel, itemGood]).1
      itemGood.article).isSome = true := by
  decide

/-- C6 (amended): one scheduler tick arms the next tick when the
previous cycle is still busy (skipping the body) and when the cycle body
returns normally; but an unhandled error from the cycle body propagates
out of `_analyze_and_cycle` before `s.enter` runs, so the next tick is
NOT armed and the scheduling loop terminates. -/
theorem analyze_and_cycle_tick_spec (classify : String → List String × List Rat)
    (sent : String → Rat) (db : DB) (items : List NewsItem) :
    analyze_and_cycle_tick classify sent true db items = .ok (db, true) ∧
    (∀ db1, analyze_api_fanout classify sent db items = .ok db1 →
      analyze_and_cycle_tick classify sent false db items = .ok (db1, true)) ∧
    (∀ e, analyze_api_fanout classify sent db items = .error e →
      analyze_and_cycle_tick classify sent false db items = .error e) := by
  refine ⟨rfl, ?_, ?_⟩
  · intro db1 h
    simp [analyze_and_cycle_tick, h]
  · intro e h
    simp [analyze_and_cycle_tick, h]

/-- C6 witness: an idle tick over an empty queue completes and arms the
next tick. -/
theorem analyze_and_cycle_tick_spec_witness :
    analyze_and_cycle_tick cl0 se0 false dbC5 [] = .ok (dbC5, true) :=
  (analyze_and_cycle_tick_spec cl0 se0 dbC5 []).2.1 dbC5 (by decide)

/-- A classifier violating the label contract (empty output). -/
def clNoLabel : String → List String × List Rat := fun _ => ([], [])

/-- C6 counterexample: a contract-violating classifier makes the cycle
raise `LabelNotFoundException`; the error escapes the tick — it is not
logged-and-survived, and the next tick is never armed, contradicting the
claim that the scheduler keeps running after an unhandled cycle error. -/
theorem scheduler_drops_tick_counterexample :
    analyze_and_cycle_tick clNoLabel se0 false dbC5 [itemGood]
      = .error (.labelNotFound []) := by
  decide

/-- C7: evaluating `create_news` at the failing input — a company name
absent from the store.  The News row is committed first, the association
insert fails its foreign key and is swallowed, so a News row persists
with zero `contains` rows, violating the at-least-one-association
invariant the code itself tries to enforce ("Modeling total relationship
from News to Company"); the empty-company-list guard itself works: it
persists nothing. -/
theorem create_news_persists_without_association :
    ((create_news dbEmpty "t" "Ghost Corp spills oil" "l" 5 0 ["Ghost Corp"] 1).1).news.length
      = 1 ∧
    ((create_news dbEmpty "t" "Ghost Corp spills oil" "l" 5 0 ["Ghost Corp"] 1).1).containsRows
      = [] ∧
    ((create_news dbEmpty "t" "Ghost Corp spills oil" "l" 5 0 ["Ghost Corp"] 1).2).isSome
      = true ∧
    create_news dbEmpty "t" "x" "l" 5 0 [] 1 = (dbEmpty, none) := by
  decide

/-- C9 counterexample: creating an organization named `""` is NOT
rejected as a pre-store validation error: the endpoint returns the 404
"Serverfehler" raised only after the store insert came back `None`. -/
theorem api_create_company_empty_counterexample :
    api_create_company dbEmpty ""
      = .error (.serverError "Serverfehler: Unternehmen konnte nicht erstellt werden.") ∧
    ∀ d, api_create_company dbEmpty "" ≠ .error (.validation d) := by
  refine ⟨rfl, ?_⟩
  intro d h
  exact ApiError.noConfusion (Except.error.inj h)

/-- C9 (amended): for every store state, creating an organization named
`""` passes the API pre-check (Python truthiness skips the conflict check
for an empty name) and reaches the store; the store insert is rejected by
the CHECK `name <> ''` constraint leaving the store unchanged, and the
endpoint surfaces the 404 server error — not a ValidationError. -/
theorem api_create_company_empty_spec (db : DB) :
    company_does_not_exist db "" = .ok () ∧
    create_company db "" = (db, none) ∧
    api_create_company db ""
      = .error (.serverError "Serverfehler: Unternehmen konnte nicht erstellt werden.") := by
  refine ⟨?_, ?_, ?_⟩
  · simp [company_does_not_exist]
  · simp [create_company]
  · simp [api_create_company, company_does_not_exist, create_company]

/-- C10: on any store whose company names are unique (the primary-key
invariant), every element of `recognize_companies` is the name of a
stored organization and no name appears more than once. -/
theorem recognize_companies_spec (db : DB) (text : String)
    (h : (db.companies.map Company.name).Nodup) :
    (∀ x ∈ recognize_companies db text, x ∈ db.companies.map Company.name) ∧
    (recognize_companies db text).Nodup := by
  constructor
  · intro x hx
    exact List.mem_of_mem_filter hx
  · exact h.filter _

/-- C10 witness store: a company with two synonyms. -/
def dbC10 : DB :=
  { companies := [⟨"Acme"⟩, ⟨"Globex"⟩],
    synonyms := [⟨"Acme", "Acme Corp"⟩, ⟨"Acme", "ACME Inc"⟩],
    news := [], sustainabilityIndicators := [], newsIndicators := [], containsRows := [],
    nextNewsId := 1 }

/-- C10 witness: although the company name and both synonyms all occur
in the text, the company contributes exactly one entry. -/
theorem recognize_companies_spec_witness :
    ((∀ x ∈ recognize_companies dbC10 "Acme and Acme Corp and ACME Inc",
        x ∈ dbC10.companies.map Company.name) ∧
      (recognize_companies dbC10 "Acme and Acme Corp and ACME Inc").Nodup) ∧
    recognize_companies dbC10 "Acme and Acme Corp and ACME Inc" = ["Acme"] :=
  ⟨recognize_companies_spec dbC10 "Acme and Acme Corp and ACME Inc" (by decide), by decide⟩



/-- C1 witness: the amended theorem instantiated on the counterexample
store — the returned list is sorted ascending by sentiment. -/
theorem get_news_by_company_and_date_range_spec_witness :
    List.Sorted sentLE (get_news_by_company_and_date_range cfgC1 dbC1 "Acme" 10 0) :=
  (get_news_by_company_and_date_range_spec cfgC1 dbC1 "Acme" 10 0).2

/-- C9 witness: the amended behavior on the empty store. -/
theorem api_create_company_empty_spec_witness :
    company_does_not_exist dbEmpty "" = .ok () ∧
    create_company dbEmpty "" = (dbEmpty, none) ∧
    api_create_company dbEmpty ""
      = .error (.serverError "Serverfehler: Unternehmen konnte nicht erstellt werden.") :=
  api_create_company_empty_spec dbEmpty

end CSA
